import Mathlib

/-
Verification of the routing engine of the GPS-Project repository
(multi-criteria road routing over OpenStreetMap data).

Modelling conventions of this shallow embedding:

* Python floats are modelled as exact rationals.  Every constant in the
  weight tables of app/utils/osm_weights.py is an exact decimal, and every
  property verified here is an order comparison or equality that is robust
  for the magnitudes involved.
* A Python dict with string keys is modelled as a function
  String -> Option A; dict.get(k, d) becomes (f k).getD d.
* Python truthiness is modelled explicitly at each use site: None and the
  empty string are falsy for tag strings, None and 0 are falsy for numbers.
* The maxspeed entry of an edge-data dict needs three states, because
  app/services/scoring.py reads it with edge_data.get("maxspeed",
  DEFAULTS["maxspeed"]) - a lookup whose default only fires when the KEY is
  absent, while app/services/overpass.py (extract_tags) always stores the
  key, possibly with value None.  It is therefore Option (Option Int):
  none = key absent, some none = key present with value None,
  some (some n) = a parsed speed n.
* The result of calculate_edge_weight is Option Rat, where none stands for
  the float("inf") blocked sentinel; no other code path produces inf.
-/

/-- Severity level of an alert, the Literal type of app/models/schemas.py. -/
inductive Level where
  | red
  | yellow
  | green
deriving DecidableEq, Repr

/-- Geographic coordinates (app/models/schemas.py, Coordinates). -/
structure Coordinates where
  lat : ℚ
  lon : ℚ
deriving DecidableEq, Repr

/-- A route alert (app/models/schemas.py, Alert). -/
structure Alert where
  level : Level
  message : String
  location : Option Coordinates
deriving DecidableEq, Repr

/-- Vehicle parameters (app/models/schemas.py, VehicleParams).  The schema
allows height and weight for every vehicle_type, not only trucks. -/
structure VehicleParams where
  vehicle_type : String
  height : Option ℚ
  weight : Option ℚ
deriving DecidableEq, Repr

/-- The normalized per-edge attribute payload, as produced by extract_tags
in app/services/overpass.py and consumed by app/services/scoring.py.
The tracktype, lanes, oneway and name entries are carried by the real dict
but never read by scoring or alert generation, so they are omitted here.
Connector edges (origin/destination snapping) carry only distance and
connector: we model them with every tag field at its absent state. -/
structure EdgeData where
  distance : ℚ
  connector : Bool
  highway : Option String
  surface : Option String
  smoothness : Option String
  lit : Option String
  traffic_signals : Option String
  maxspeed : Option (Option Int)
  maxheight : Option ℚ
  maxweight : Option ℚ
  hgv : Option String
  access : Option String
deriving DecidableEq, Repr

/-- The value of the "default" key of HIGHWAY_WEIGHTS (osm_weights.py). -/
def HIGHWAY_WEIGHTS_default : ℚ := 2.5

/-- Highway type weights (osm_weights.py, HIGHWAY_WEIGHTS). -/
def HIGHWAY_WEIGHTS (s : String) : Option ℚ :=
  if s = "motorway" then some 1.0
  else if s = "motorway_link" then some 1.1
  else if s = "trunk" then some 1.2
  else if s = "trunk_link" then some 1.3
  else if s = "primary" then some 1.4
  else if s = "primary_link" then some 1.5
  else if s = "secondary" then some 1.6
  else if s = "secondary_link" then some 1.7
  else if s = "tertiary" then some 1.8
  else if s = "tertiary_link" then some 1.9
  else if s = "unclassified" then some 2.0
  else if s = "residential" then some 2.1
  else if s = "living_street" then some 2.5
  else if s = "service" then some 3.0
  else if s = "track" then some 5.0
  else if s = "path" then some 10.0
  else if s = "footway" then some 15.0
  else if s = "default" then some HIGHWAY_WEIGHTS_default
  else none

/-- The value of the "default" key of SURFACE_WEIGHTS (osm_weights.py). -/
def SURFACE_WEIGHTS_default : ℚ := 2.0

/-- Surface quality weights (osm_weights.py, SURFACE_WEIGHTS). -/
def SURFACE_WEIGHTS (s : String) : Option ℚ :=
  if s = "asphalt" then some 1.0
  else if s = "concrete" then some 1.0
  else if s = "paved" then some 1.1
  else if s = "concrete:plates" then some 1.3
  else if s = "paving_stones" then some 1.4
  else if s = "compacted" then some 2.0
  else if s = "fine_gravel" then some 2.2
  else if s = "gravel" then some 3.0
  else if s = "unpaved" then some 3.5
  else if s = "dirt" then some 4.0
  else if s = "ground" then some 4.5
  else if s = "grass" then some 5.0
  else if s = "sand" then some 6.0
  else if s = "mud" then some 8.0
  else if s = "default" then some SURFACE_WEIGHTS_default
  else none

/-- The value of the "default" key of SMOOTHNESS_WEIGHTS (osm_weights.py). -/
def SMOOTHNESS_WEIGHTS_default : ℚ := 1.5

/-- Smoothness quality weights (osm_weights.py, SMOOTHNESS_WEIGHTS). -/
def SMOOTHNESS_WEIGHTS (s : String) : Option ℚ :=
  if s = "excellent" then some 1.0
  else if s = "good" then some 1.2
  else if s = "intermediate" then some 1.5
  else if s = "bad" then some 3.0
  else if s = "very_bad" then some 5.0
  else if s = "horrible" then some 8.0
  else if s = "very_horrible" then some 10.0
  else if s = "impassable" then some 100.0
  else if s = "default" then some SMOOTHNESS_WEIGHTS_default
  else none

/-- The value of the "default" key of SAFETY_FACTORS["lit"]. -/
def SAFETY_FACTORS_lit_default : ℚ := 1.0

/-- Lighting safety factors (osm_weights.py, SAFETY_FACTORS["lit"]). -/
def SAFETY_FACTORS_lit (s : String) : Option ℚ :=
  if s = "yes" then some 0.8
  else if s = "no" then some 1.3
  else if s = "default" then some SAFETY_FACTORS_lit_default
  else none

/-- The value of SAFETY_FACTORS["traffic_signals"]["yes"]. -/
def SAFETY_FACTORS_traffic_signals_yes : ℚ := 0.9

/-- DEFAULTS["maxspeed"] of osm_weights.py: 50 km/h when absent. -/
def DEFAULTS_maxspeed : Int := 50

/-- DEFAULTS["highway"] of osm_weights.py. -/
def DEFAULTS_highway : String := "default"

/-- Speed-based safety penalty (osm_weights.py, get_speed_penalty). -/
def get_speed_penalty (maxspeed : Int) : ℚ :=
  if maxspeed ≤ 40 then 1.0
  else if maxspeed ≤ 60 then 1.2
  else if maxspeed ≤ 80 then 1.5
  else if maxspeed ≤ 100 then 2.0
  else 3.0

/-- One row of the CRITERIA_MULTIPLIERS matrix (osm_weights.py). -/
structure Multipliers where
  distance : ℚ
  highway_type : ℚ
  surface : ℚ
  smoothness : ℚ
  safety : ℚ
deriving DecidableEq, Repr

/-- The "fastest" row of CRITERIA_MULTIPLIERS. -/
def fastestMultipliers : Multipliers :=
  { distance := 1.0, highway_type := 0.5, surface := 0.1, smoothness := 0.1, safety := 0.0 }

/-- Criteria weight multipliers (osm_weights.py, CRITERIA_MULTIPLIERS). -/
def CRITERIA_MULTIPLIERS (c : String) : Option Multipliers :=
  if c = "fastest" then some fastestMultipliers
  else if c = "best_surface" then
    some { distance := 1.0, highway_type := 0.3, surface := 2.0, smoothness := 2.0, safety := 0.1 }
  else if c = "safest" then
    some { distance := 1.0, highway_type := 0.5, surface := 0.5, smoothness := 0.5, safety := 3.0 }
  else if c = "truck_compatible" then
    some { distance := 1.0, highway_type := 1.0, surface := 1.5, smoothness := 1.0, safety := 0.5 }
  else none

/-- The multiplier row used for a criterion string:
CRITERIA_MULTIPLIERS.get(criterion, CRITERIA_MULTIPLIERS["fastest"]) in
calculate_edge_weight (scoring.py line 50). -/
def criterionMultipliers (c : String) : Multipliers :=
  (CRITERIA_MULTIPLIERS c).getD fastestMultipliers

/-- ScoringService._get_highway_weight (scoring.py lines 76-79). -/
def _get_highway_weight (e : EdgeData) : ℚ :=
  (HIGHWAY_WEIGHTS (e.highway.getD DEFAULTS_highway)).getD HIGHWAY_WEIGHTS_default - 1.0

/-- ScoringService._get_surface_weight (scoring.py lines 81-88).
In Python the check is the truthiness test "if not surface", so both an
absent tag and an empty string yield 0.0. -/
def _get_surface_weight (e : EdgeData) : ℚ :=
  match e.surface with
  | none => 0.0
  | some s => if s = "" then 0.0 else (SURFACE_WEIGHTS s).getD SURFACE_WEIGHTS_default - 1.0

/-- ScoringService._get_smoothness_weight (scoring.py lines 90-97). -/
def _get_smoothness_weight (e : EdgeData) : ℚ :=
  match e.smoothness with
  | none => 0.0
  | some s => if s = "" then 0.0 else (SMOOTHNESS_WEIGHTS s).getD SMOOTHNESS_WEIGHTS_default - 1.0

/-- The lighting factor inside _get_safety_weight (scoring.py lines 104-109):
a truthy lit tag is looked up with default 1.0, an absent or empty tag
multiplies by the default 1.0. -/
def litFactor (e : EdgeData) : ℚ :=
  match e.lit with
  | none => SAFETY_FACTORS_lit_default
  | some l => if l = "" then SAFETY_FACTORS_lit_default
              else (SAFETY_FACTORS_lit l).getD SAFETY_FACTORS_lit_default

/-- The traffic-signals factor inside _get_safety_weight (scoring.py lines
111-113): any truthy value multiplies by the "yes" factor 0.9. -/
def trafficSignalsFactor (e : EdgeData) : ℚ :=
  match e.traffic_signals with
  | none => 1.0
  | some t => if t = "" then 1.0 else SAFETY_FACTORS_traffic_signals_yes

/-- The value of edge_data.get("maxspeed", DEFAULTS["maxspeed"]) (scoring.py
line 116): the default 50 fires only when the maxspeed KEY is absent; a key
stored with value None (as extract_tags always does for missing or
unparseable raw tags) is returned as None. -/
def effectiveMaxspeed (e : EdgeData) : Option Int :=
  match e.maxspeed with
  | none => some DEFAULTS_maxspeed
  | some v => v

/-- The speed-penalty factor inside _get_safety_weight (scoring.py lines
115-119): guarded by the truthiness test "if maxspeed", so None and 0 skip
the penalty. -/
def speedFactor (e : EdgeData) : ℚ :=
  match effectiveMaxspeed e with
  | none => 1.0
  | some n => if n = 0 then 1.0 else get_speed_penalty n

/-- ScoringService._get_safety_weight (scoring.py lines 99-121). -/
def _get_safety_weight (e : EdgeData) : ℚ :=
  litFactor e * trafficSignalsFactor e * speedFactor e - 1.0

/-- The height hard-block of _get_truck_restriction_penalty (scoring.py
lines 134-137): "if maxheight and vehicle.height and vehicle.height >
maxheight".  Note there is no vehicle_type check on this branch. -/
def heightBlocked (e : EdgeData) (v : VehicleParams) : Bool :=
  match e.maxheight, v.height with
  | some mh, some h => if mh = 0 ∨ h = 0 then false else decide (mh < h)
  | _, _ => false

/-- The weight hard-block of _get_truck_restriction_penalty (scoring.py
lines 139-142), again with no vehicle_type check. -/
def weightBlocked (e : EdgeData) (v : VehicleParams) : Bool :=
  match e.maxweight, v.weight with
  | some mw, some w => if mw = 0 ∨ w = 0 then false else decide (mw < w)
  | _, _ => false

/-- The HGV hard-block of _get_truck_restriction_penalty (scoring.py lines
144-147): hgv == "no" and vehicle_type == "truck". -/
def hgvBlocked (e : EdgeData) (v : VehicleParams) : Bool :=
  e.hgv == some "no" && v.vehicle_type == "truck"

/-- The access hard-block of _get_truck_restriction_penalty (scoring.py
lines 149-152): access in ["private", "no"] and vehicle_type == "truck". -/
def accessBlocked (e : EdgeData) (v : VehicleParams) : Bool :=
  (e.access == some "private" || e.access == some "no") && v.vehicle_type == "truck"

/-- ScoringService._get_truck_restriction_penalty (scoring.py lines
123-163).  none models the float("inf") return; the soft penalties for
hgv=destination (x2.0) and access=delivery (x1.5) compound
multiplicatively starting from 1.0. -/
def _get_truck_restriction_penalty (e : EdgeData) (v : VehicleParams) : Option ℚ :=
  if heightBlocked e v then none
  else if weightBlocked e v then none
  else if hgvBlocked e v then none
  else if accessBlocked e v then none
  else some (1.0 * (if e.hgv == some "destination" then (2.0 : ℚ) else 1)
                 * (if e.access == some "delivery" then (1.5 : ℚ) else 1))

/-- ScoringService.calculate_edge_weight (scoring.py lines 25-74).
Returns none for the float("inf") blocked sentinel.  Truck gating runs
whenever criterion == "truck_compatible" and a vehicle object is given
(a VehicleParams instance is always truthy in Python). -/
def calculate_edge_weight (e : EdgeData) (criterion : String)
    (vehicle : Option VehicleParams) : Option ℚ :=
  let distance := e.distance
  if e.connector then some distance
  else
    let multipliers := criterionMultipliers criterion
    let total_weight :=
      distance * multipliers.distance *
      (1 + _get_highway_weight e * multipliers.highway_type) *
      (1 + _get_surface_weight e * multipliers.surface) *
      (1 + _get_smoothness_weight e * multipliers.smoothness) *
      (1 + _get_safety_weight e * multipliers.safety)
    if criterion = "truck_compatible" then
      match vehicle with
      | some v =>
        match _get_truck_restriction_penalty e v with
        | none => none
        | some p => some (total_weight * p)
      | none => some total_weight
    else some total_weight

/-- Rendering of a rational into an alert message, standing in for the
Python float formatting in f-strings.  No claim inspects the exact digits
of these substrings; the function only needs to be deterministic. -/
def pyFloatRepr (q : ℚ) : String := toString q

/-- The location object built at the top of generate_alerts_for_edge
(scoring.py lines 185-188): present only when both coordinates are given. -/
def mkLocation (node_lat node_lon : Option ℚ) : Option Coordinates :=
  match node_lat, node_lon with
  | some la, some lo => some { lat := la, lon := lo }
  | _, _ => none

/-- The surface alert rules (scoring.py lines 194-207).  These are an
if/elif chain: a surface in the first list emits only the yellow alert,
so "mud" never reaches the red branch, which fires for "sand" alone.
A Python membership test with surface = None is False for both branches. -/
def surfaceAlerts (e : EdgeData) (location : Option Coordinates) : List Alert :=
  match e.surface with
  | none => []
  | some s =>
    if s = "unpaved" ∨ s = "dirt" ∨ s = "gravel" ∨ s = "mud" then
      [{ level := Level.yellow, message := "Unpaved road: " ++ s, location := location }]
    else if s = "mud" ∨ s = "sand" then
      [{ level := Level.red, message := "Poor surface condition: " ++ s, location := location }]
    else []

/-- The smoothness alert rules (scoring.py lines 209-222), an if/elif
chain analogous to the surface rules. -/
def smoothnessAlerts (e : EdgeData) (location : Option Coordinates) : List Alert :=
  match e.smoothness with
  | none => []
  | some s =>
    if s = "bad" ∨ s = "very_bad" then
      [{ level := Level.yellow, message := "Road quality: " ++ s, location := location }]
    else if s = "horrible" ∨ s = "very_horrible" ∨ s = "impassable" then
      [{ level := Level.red, message := "Very poor road quality: " ++ s, location := location }]
    else []

/-- The lighting alert rule (scoring.py lines 224-231). -/
def litAlerts (e : EdgeData) (location : Option Coordinates) : List Alert :=
  if e.lit == some "no" then
    [{ level := Level.yellow, message := "No street lighting", location := location }]
  else []

/-- The speed alert rule (scoring.py lines 233-240).  Here the lookup is
edge_data.get("maxspeed") with no default, so an absent key and a None
value behave alike; the guard is "if maxspeed and maxspeed > 100". -/
def speedAlerts (e : EdgeData) (location : Option Coordinates) : List Alert :=
  match e.maxspeed with
  | some (some n) =>
    if n ≠ 0 ∧ 100 < n then
      [{ level := Level.yellow,
         message := "High speed road: " ++ toString n ++ " km/h", location := location }]
    else []
  | _ => []

/-- The truck height alert rules (scoring.py lines 244-258): red when the
vehicle is strictly taller than the limit, else yellow when strictly
taller than 90 percent of it.  All numeric guards are truthiness-guarded. -/
def heightAlerts (e : EdgeData) (v : VehicleParams) (location : Option Coordinates) : List Alert :=
  match e.maxheight with
  | none => []
  | some mh =>
    if mh = 0 then []
    else
      match v.height with
      | none => []
      | some h =>
        if h ≠ 0 ∧ mh < h then
          [{ level := Level.red,
             message := "Height restriction: " ++ pyFloatRepr mh ++ "m (vehicle: "
                          ++ pyFloatRepr h ++ "m)", location := location }]
        else if h ≠ 0 ∧ mh * 0.9 < h then
          [{ level := Level.yellow,
             message := "Tight clearance: " ++ pyFloatRepr mh ++ "m (vehicle: "
                          ++ pyFloatRepr h ++ "m)", location := location }]
        else []

/-- The truck weight alert rules (scoring.py lines 260-274). -/
def weightAlerts (e : EdgeData) (v : VehicleParams) (location : Option Coordinates) : List Alert :=
  match e.maxweight with
  | none => []
  | some mw =>
    if mw = 0 then []
    else
      match v.weight with
      | none => []
      | some w =>
        if w ≠ 0 ∧ mw < w then
          [{ level := Level.red,
             message := "Weight restriction: " ++ pyFloatRepr mw ++ "t (vehicle: "
                          ++ pyFloatRepr w ++ "t)", location := location }]
        else if w ≠ 0 ∧ mw * 0.9 < w then
          [{ level := Level.yellow,
             message := "Near weight limit: " ++ pyFloatRepr mw ++ "t (vehicle: "
                          ++ pyFloatRepr w ++ "t)", location := location }]
        else []

/-- The truck HGV alert rules (scoring.py lines 276-289). -/
def hgvAlerts (e : EdgeData) (location : Option Coordinates) : List Alert :=
  if e.hgv == some "no" then
    [{ level := Level.red, message := "Trucks not allowed (HGV restriction)",
       location := location }]
  else if e.hgv == some "destination" then
    [{ level := Level.yellow, message := "Destination traffic only for trucks",
       location := location }]
  else []

/-- The truck access alert rules (scoring.py lines 291-304). -/
def accessAlerts (e : EdgeData) (location : Option Coordinates) : List Alert :=
  match e.access with
  | none => []
  | some a =>
    if a = "private" ∨ a = "no" then
      [{ level := Level.red, message := "Access restricted: " ++ a, location := location }]
    else if a = "delivery" ∨ a = "destination" then
      [{ level := Level.yellow, message := "Limited access: " ++ a, location := location }]
    else []

/-- The truck-specific block of generate_alerts_for_edge (scoring.py lines
242-304), run only when a vehicle is given and its type is "truck". -/
def truckAlerts (e : EdgeData) (vehicle : Option VehicleParams)
    (location : Option Coordinates) : List Alert :=
  match vehicle with
  | none => []
  | some v =>
    if v.vehicle_type = "truck" then
      heightAlerts e v location ++ weightAlerts e v location
        ++ hgvAlerts e location ++ accessAlerts e location
    else []

/-- ScoringService.generate_alerts_for_edge (scoring.py lines 165-306).
The Python function appends to one list section by section; that is the
concatenation below.  Connector edges short-circuit to no alerts. -/
def generate_alerts_for_edge (e : EdgeData) (vehicle : Option VehicleParams)
    (node_lat node_lon : Option ℚ) : List Alert :=
  let location := mkLocation node_lat node_lon
  if e.connector then []
  else
    surfaceAlerts e location ++ smoothnessAlerts e location ++ litAlerts e location
      ++ speedAlerts e location ++ truckAlerts e vehicle location

/-- ScoringService.summarize_alerts (scoring.py lines 308-330). -/
def summarize_alerts (alerts : List Alert) : String :=
  if alerts.isEmpty then "Route is clear with no warnings"
  else
    let red_count := (alerts.filter (fun a => a.level == Level.red)).length
    let yellow_count := (alerts.filter (fun a => a.level == Level.yellow)).length
    let parts :=
      (if 0 < red_count then [toString red_count ++ " critical alert(s)"] else [])
        ++ (if 0 < yellow_count then [toString yellow_count ++ " caution(s)"] else [])
    if parts.isEmpty then "Route is clear" else String.intercalate ", " parts

/-- Sort key of _deduplicate_alerts (routing.py line 224):
red maps to 0, yellow to 1, green to 2. -/
def levelRank : Level → Nat
  | Level.red => 0
  | Level.yellow => 1
  | Level.green => 2

/-- The Python sorted(alerts, key=levelRank) call of routing.py line 224.
Python sort is stable, and for a three-valued key a stable sort returns
exactly the key-0 bucket, then the key-1 bucket, then the key-2 bucket,
each in input order; that is the definition used here. -/
def sortByLevel (alerts : List Alert) : List Alert :=
  alerts.filter (fun a => a.level == Level.red)
    ++ alerts.filter (fun a => a.level == Level.yellow)
    ++ alerts.filter (fun a => a.level == Level.green)

/-- The streaming first-occurrence filter of _deduplicate_alerts
(routing.py lines 220-229): seen_messages is a set queried only for
membership, modelled as the list of messages added so far. -/
def dedupPass (seen : List String) : List Alert → List Alert
  | [] => []
  | a :: rest =>
    if a.message ∈ seen then dedupPass seen rest
    else a :: dedupPass (a.message :: seen) rest

/-- RoutingService._deduplicate_alerts (routing.py lines 210-231):
stable sort by severity, keep the first occurrence of each message,
truncate to 10 entries. -/
def _deduplicate_alerts (alerts : List Alert) : List Alert :=
  (dedupPass [] (sortByLevel alerts)).take 10

/-- The summary produced for a route by _calculate_single_route
(routing.py lines 153 and 164): summarize_alerts applied to the
deduplicated-and-truncated alert list. -/
def routeSummary (all_alerts : List Alert) : String :=
  summarize_alerts (_deduplicate_alerts all_alerts)

/-- Stated from the claim wording of C5 for comparison: the summary whose
counts are taken from the deduplicated alert list BEFORE truncation to 10
entries. -/
def routeSummary_claimed (all_alerts : List Alert) : String :=
  summarize_alerts (dedupPass [] (sortByLevel all_alerts))

/-- Graph node ids: integer OSM ids plus the two reserved terminal
strings "origin" and "destination" of build_graph (overpass.py). -/
inductive Node where
  | osm (id : Int)
  | origin
  | destination
deriving DecidableEq, Repr

/-- RoutingService._create_weighted_graph (routing.py lines 174-208),
modelled on the multigraph edge list in iteration order (for a fixed node
pair, networkx yields parallel edges in insertion order).  The result is
the adjacency map of the weighted DiGraph: add_edge on a DiGraph
overwrites the data already stored for the same (u, v) pair, so the last
non-blocked parallel edge wins; edges of infinite weight are skipped. -/
def _create_weighted_graph (G : List (Node × Node × EdgeData)) (criterion : String)
    (vehicle : Option VehicleParams) : Node → Node → Option (ℚ × EdgeData) :=
  G.foldl
    (fun acc t =>
      match calculate_edge_weight t.2.2 criterion vehicle with
      | none => acc
      | some w => fun a b => if a = t.1 ∧ b = t.2.1 then some (w, t.2.2) else acc a b)
    (fun _ _ => none)

/-- The edge-data selection of _calculate_single_route (routing.py lines
129-132): G.get_edge_data(node1, node2) on the MultiDiGraph followed by
list(edge_data.values())[0], i.e. the FIRST parallel edge in insertion
order, independent of criterion and weight. -/
def multi_get_edge_data (G : List (Node × Node × EdgeData)) (u v : Node) : Option EdgeData :=
  (G.find? (fun t => t.1 == u && t.2.1 == v)).map (fun t => t.2.2)

/-- The parallel edges between a fixed ordered node pair, in insertion
order. -/
def parallelEdges (G : List (Node × Node × EdgeData)) (u v : Node) : List EdgeData :=
  (G.filter (fun t => t.1 == u && t.2.1 == v)).map (fun t => t.2.2)

/-- A route of the response (app/models/schemas.py, Route).  Geometry is
carried as raw coordinate pairs; no claim inspects it. -/
structure Route where
  type : String
  distance_km : ℚ
  geometry : List (ℚ × ℚ)
  alerts : List Alert
  summary : String
deriving DecidableEq, Repr

/-- The criteria list assembled by calculate_routes (routing.py lines
51-55): three fixed criteria plus truck_compatible iff a vehicle is given
and its type is "truck". -/
def routeCriteria (vehicle : Option VehicleParams) : List String :=
  ["fastest", "best_surface", "safest"]
    ++ (match vehicle with
        | some v => if v.vehicle_type = "truck" then ["truck_compatible"] else []
        | none => [])

/-- RoutingService.calculate_routes (routing.py lines 21-75) with the OSM
fetch, graph build and per-criterion search abstracted into findRoute:
_calculate_single_route returns None (and the surrounding try/except
continues) when a criterion has no path, so each criterion contributes
its route exactly when findRoute yields one.  If no criterion yields a
route the function raises Exception("No valid routes found"). -/
def calculate_routes (findRoute : String → Option Route)
    (vehicle : Option VehicleParams) : Except String (List Route) :=
  let routes := (routeCriteria vehicle).filterMap findRoute
  if routes.isEmpty then Except.error "No valid routes found" else Except.ok routes

/-- Python str.split() with no argument, applied to the character list:
split on runs of whitespace, discarding empty pieces. -/
def pyTokensAux (cur : List Char) (acc : List String) : List Char → List String
  | [] => if cur.isEmpty then acc.reverse else (String.mk cur.reverse :: acc).reverse
  | c :: rest =>
    if c.isWhitespace then
      if cur.isEmpty then pyTokensAux [] acc rest
      else pyTokensAux [] (String.mk cur.reverse :: acc) rest
    else pyTokensAux (c :: cur) acc rest

/-- Python value.split() of overpass.py line 137. -/
def pySplit (s : String) : List String := pyTokensAux [] [] s.data

/-- The value of a nonempty all-digit character list. -/
def digitsVal (ds : List Char) : Option Nat :=
  if ds ≠ [] ∧ ds.all Char.isDigit then
    some (ds.foldl (fun a c => 10 * a + (c.toNat - 48)) 0)
  else none

/-- Python int(str) on a whitespace-free token: an optional sign followed
by one or more decimal digits, consuming the ENTIRE token; anything else
raises ValueError, modelled as none.  (Python additionally allows
underscores between digits; no tag in these claims uses them.) -/
def pyInt (s : String) : Option Int :=
  match s.data with
  | '+' :: ds => (digitsVal ds).map (fun n => (n : Int))
  | '-' :: ds => (digitsVal ds).map (fun n => -(n : Int))
  | ds => (digitsVal ds).map (fun n => (n : Int))

/-- Python str.lower(), per character (all tag values are ASCII). -/
def pyLower (s : String) : String := String.mk (s.data.map Char.toLower)

/-- Substring test on character lists, modelling the Python "in" operator
for strings. -/
def hasSubstring (l pat : List Char) : Bool :=
  match l with
  | [] => pat.isEmpty
  | _ :: rest => pat.isPrefixOf l || hasSubstring rest pat

/-- The check "mph" in value.lower() of overpass.py line 141. -/
def containsMph (s : String) : Bool := hasSubstring (pyLower s).data "mph".data

/-- Python int() applied to a float: truncation toward zero. -/
def truncQ (q : ℚ) : Int := if 0 ≤ q then ⌊q⌋ else ⌈q⌉

/-- The mph-to-km/h conversion constant of overpass.py line 142. -/
def MPH_TO_KMH : ℚ := 1.60934

/-- OverpassService._parse_maxspeed (overpass.py lines 130-146): the
falsy-value guard, split on whitespace, int() on the first token (a
ValueError or IndexError returns None), and the mph conversion with
truncation when the original string contains "mph" case-insensitively. -/
def _parse_maxspeed (value : Option String) : Option Int :=
  match value with
  | none => none
  | some v =>
    if v = "" then none
    else
      match pySplit v with
      | [] => none
      | tok :: _ =>
        match pyInt tok with
        | none => none
        | some speed =>
          some (if containsMph v then truncQ ((speed : ℚ) * MPH_TO_KMH) else speed)

/-- Stated from the claim wording of C9 for comparison: split on
whitespace and parse the LEADING integer of the first token (ignoring any
trailing characters of that token), with the same mph conversion. -/
def parse_maxspeed_claimed (value : Option String) : Option Int :=
  match value with
  | none => none
  | some v =>
    match pySplit v with
    | [] => none
    | tok :: _ =>
      let leading : List Char → Option Int := fun ds =>
        (digitsVal (ds.takeWhile Char.isDigit)).map (fun n => (n : Int))
      match (match tok.data with
             | '+' :: ds => leading ds
             | '-' :: ds => (leading ds).map (fun n => -n)
             | ds => leading ds) with
      | none => none
      | some speed =>
        some (if containsMph v then truncQ ((speed : ℚ) * MPH_TO_KMH) else speed)

/-- A non-connector edge with neutral tags: motorway, no surface or
smoothness tag, unlit, no signals, maxspeed key present with value None
(as extract_tags stores a missing raw tag), no restrictions. -/
def eBase : EdgeData :=
  { distance := 1, connector := false, highway := some "motorway", surface := none,
    smoothness := none, lit := none, traffic_signals := none, maxspeed := some none,
    maxheight := none, maxweight := none, hgv := none, access := none }

/-- Counterexample edge for C1: lit=yes with the maxspeed key wholly
absent, so the default 50 applies and the safety factor is
0.8 * 1.2 = 0.96 < 1. -/
def eLitYes : EdgeData := { eBase with lit := some "yes", maxspeed := none }

/-- An edge whose maxspeed key is absent from the dict, the only state in
which DEFAULTS["maxspeed"] can fire. -/
def eMaxspeedAbsent : EdgeData := { eBase with maxspeed := none }

/-- Parallel-edge fixtures for C2: an asphalt and a mud edge between the
same ordered node pair, asphalt inserted first. -/
def eAsphaltPar : EdgeData := { eBase with surface := some "asphalt" }

/-- The mud member of the C2 parallel pair. -/
def eMudPar : EdgeData := { eBase with surface := some "mud" }

/-- The two-edge multigraph of the C2 counterexample. -/
def GPar : List (Node × Node × EdgeData) :=
  [(Node.osm 1, Node.osm 2, eAsphaltPar), (Node.osm 1, Node.osm 2, eMudPar)]

/-- Counterexample edge for C4: surface mud, nothing else tagged. -/
def eMudOnly : EdgeData := { eBase with surface := some "mud" }

/-- Counterexample edge for C6: a 3 m height limit. -/
def eMaxH3 : EdgeData := { eBase with maxheight := some 3 }

/-- Counterexample vehicle for C6: a CAR with a 5 m height attribute,
which the pydantic schema permits. -/
def carTall : VehicleParams := { vehicle_type := "car", height := some 5, weight := none }

/-- A helper for alert-list fixtures: a yellow alert with a given message. -/
def yAlert (m : String) : Alert := { level := Level.yellow, message := m, location := none }

/-- Eleven alerts with pairwise distinct messages, all yellow: after
deduplication eleven survive, after truncation only ten. -/
def elevenAlerts : List Alert :=
  [yAlert "w01", yAlert "w02", yAlert "w03", yAlert "w04", yAlert "w05", yAlert "w06",
   yAlert "w07", yAlert "w08", yAlert "w09", yAlert "w10", yAlert "w11"]

/-- A sample route for the C8 witness. -/
def rSample : Route :=
  { type := "fastest", distance_km := 1, geometry := [], alerts := [],
    summary := "Route is clear with no warnings" }

/-- A per-criterion search that only succeeds for the fastest criterion. -/
def findFastestOnly : String → Option Route :=
  fun c => if c = "fastest" then some rSample else none

/-- A per-criterion search that never finds a path. -/
def findNothing : String → Option Route := fun _ => none

/-- The entry contributed to the weighted view by one parallel edge:
its finite weight paired with its data, or nothing when blocked. -/
def wgEntry (criterion : String) (vehicle : Option VehicleParams)
    (d : EdgeData) : Option (ℚ × EdgeData) :=
  (calculate_edge_weight d criterion vehicle).map (fun w => (w, d))

/-- C1, counterexample: on a lit (lit=yes) motorway edge of length 1 with
no speed tag, the safest-criterion cost is 22/25, strictly below
length_km times the safest distance multiplier (1 * 1 = 1), because the
safety factor 1 + (0.96 - 1) * 3.0 = 22/25 is below 1.  This refutes the
claim that all four parenthesized factors are at least 1 and that
cost >= length_km * M.distance. -/
theorem cost_below_distance_floor_cx :
    calculate_edge_weight eLitYes "safest" none = some (22/25) ∧
    (22/25 : ℚ) < eLitYes.distance * (criterionMultipliers "safest").distance := by
  constructor
  · simp [calculate_edge_weight, criterionMultipliers, CRITERIA_MULTIPLIERS,
      fastestMultipliers, _get_highway_weight, HIGHWAY_WEIGHTS, HIGHWAY_WEIGHTS_default,
      DEFAULTS_highway, _get_surface_weight, _get_smoothness_weight, _get_safety_weight,
      litFactor, SAFETY_FACTORS_lit, SAFETY_FACTORS_lit_default, trafficSignalsFactor,
      speedFactor, effectiveMaxspeed, DEFAULTS_maxspeed, get_speed_penalty, eLitYes, eBase]
    norm_num
  · simp [criterionMultipliers, CRITERIA_MULTIPLIERS, eLitYes, eBase]
    norm_num

/-- C2, counterexample: with an asphalt edge (fastest-weight 1) inserted
before a parallel mud edge (fastest-weight 17/10) between the same nodes,
the weighted view handed to the shortest-path search stores the LAST
edge's weight 17/10, not the parallel minimum 1; and the edge data
consumed for alerts is the FIRST edge (asphalt), not the edge stored in
the weighted view. -/
theorem parallel_edge_selection_cx :
    _create_weighted_graph GPar "fastest" none (Node.osm 1) (Node.osm 2)
      = some (17/10, eMudPar) ∧
    calculate_edge_weight eAsphaltPar "fastest" none = some 1 ∧
    (1 : ℚ) < 17/10 ∧
    multi_get_edge_data GPar (Node.osm 1) (Node.osm 2) = some eAsphaltPar := by
  refine ⟨?_, ?_, by norm_num, ?_⟩
  · simp [_create_weighted_graph, GPar, calculate_edge_weight, criterionMultipliers,
      CRITERIA_MULTIPLIERS, fastestMultipliers, _get_highway_weight, HIGHWAY_WEIGHTS,
      HIGHWAY_WEIGHTS_default, DEFAULTS_highway, _get_surface_weight, SURFACE_WEIGHTS,
      SURFACE_WEIGHTS_default, _get_smoothness_weight, _get_safety_weight, litFactor,
      SAFETY_FACTORS_lit_default, trafficSignalsFactor, speedFactor, effectiveMaxspeed,
      get_speed_penalty, eAsphaltPar, eMudPar, eBase]
    norm_num
  · simp [calculate_edge_weight, criterionMultipliers, CRITERIA_MULTIPLIERS,
      fastestMultipliers, _get_highway_weight, HIGHWAY_WEIGHTS, HIGHWAY_WEIGHTS_default,
      DEFAULTS_highway, _get_surface_weight, SURFACE_WEIGHTS, SURFACE_WEIGHTS_default,
      _get_smoothness_weight, _get_safety_weight, litFactor, SAFETY_FACTORS_lit_default,
      trafficSignalsFactor, speedFactor, effectiveMaxspeed, get_speed_penalty,
      eAsphaltPar, eBase]
    norm_num
  · simp [multi_get_edge_data, GPar, List.find?]

/-- C3, evidence: an edge whose maxspeed KEY is present with value None -
the state extract_tags produces for every missing or unparseable raw
maxspeed tag - receives NO speed penalty (safety excess 0), while the
default of 50 km/h and its 1.2 penalty fire only when the key is wholly
absent from the dict, which never happens for edges built by
extract_tags. -/
theorem maxspeed_default_dead_code :
    _get_safety_weight eBase = 0 ∧
    _get_safety_weight eMaxspeedAbsent = 1/5 ∧
    get_speed_penalty DEFAULTS_maxspeed = 6/5 := by
  refine ⟨?_, ?_, ?_⟩
  · simp [_get_safety_weight, litFactor, SAFETY_FACTORS_lit_default, trafficSignalsFactor,
      speedFactor, effectiveMaxspeed, eBase]
    norm_num
  · simp [_get_safety_weight, litFactor, SAFETY_FACTORS_lit_default, trafficSignalsFactor,
      speedFactor, effectiveMaxspeed, DEFAULTS_maxspeed, get_speed_penalty,
      eMaxspeedAbsent, eBase]
    norm_num
  · simp [get_speed_penalty, DEFAULTS_maxspeed]
    norm_num

/-- C4, counterexample: an edge with surface mud produces exactly ONE
alert - the yellow unpaved-road alert - because the two surface rules
form an if/elif chain; the red poor-surface alert is not emitted. -/
theorem mud_single_alert_cx :
    generate_alerts_for_edge eMudOnly none none none =
      [{ level := Level.yellow, message := "Unpaved road: mud", location := none }] ∧
    (generate_alerts_for_edge eMudOnly none none none).length = 1 := by
  constructor
  · simp [generate_alerts_for_edge, mkLocation, surfaceAlerts, smoothnessAlerts,
      litAlerts, speedAlerts, truckAlerts, eMudOnly, eBase]
  · simp [generate_alerts_for_edge, mkLocation, surfaceAlerts, smoothnessAlerts,
      litAlerts, speedAlerts, truckAlerts, eMudOnly, eBase]

/-- C5, counterexample: with eleven distinct yellow messages the code
summarizes the truncated list ("10 caution(s)"), not the pre-truncation
deduplicated list ("11 caution(s)") that the claim describes. -/
theorem summary_posttruncation_cx :
    routeSummary elevenAlerts = "10 caution(s)" ∧
    routeSummary_claimed elevenAlerts = "11 caution(s)" := by
  constructor <;> rfl

/-- C6, counterexample: under criterion truck_compatible a CAR with a 5 m
height attribute is hard-blocked by a 3 m maxheight edge, because the
height branch of _get_truck_restriction_penalty never checks
vehicle_type; this refutes the claim that gating requires the vehicle to
be a truck. -/
theorem nontruck_height_block_cx :
    calculate_edge_weight eMaxH3 "truck_compatible" (some carTall) = none ∧
    carTall.vehicle_type ≠ "truck" := by
  constructor
  · simp [calculate_edge_weight, _get_truck_restriction_penalty, heightBlocked,
      eMaxH3, eBase, carTall]
    norm_num
  · simp [carTall]

/-- C9, counterexample: for the raw tag "50km/h" the code returns absence
(Python int() rejects the whole first token), while the claimed
leading-integer parse of the first token would return 50. -/
theorem parse_maxspeed_full_token_cx :
    _parse_maxspeed (some "50km/h") = none ∧
    parse_maxspeed_claimed (some "50km/h") = some 50 := by
  constructor <;> rfl

/-- The first-occurrence pass only ever drops elements. -/
theorem dedupPass_sublist (seen : List String) (l : List Alert) :
    List.Sublist (dedupPass seen l) l := by
  induction l generalizing seen with
  | nil => simp [dedupPass]
  | cons a t ih =>
    by_cases hmem : a.message ∈ seen
    · rw [dedupPass, if_pos hmem]
      exact List.Sublist.cons a (ih seen)
    · rw [dedupPass, if_neg hmem]
      exact List.Sublist.cons₂ a (ih (a.message :: seen))

/-- No message of the first-occurrence pass output was already seen. -/
theorem dedupPass_not_seen (seen : List String) (l : List Alert) :
    ∀ a ∈ dedupPass seen l, a.message ∉ seen := by
  induction l generalizing seen with
  | nil => simp [dedupPass]
  | cons a t ih =>
    by_cases hmem : a.message ∈ seen
    · rw [dedupPass, if_pos hmem]
      exact ih seen
    · rw [dedupPass, if_neg hmem]
      intro b hb
      rcases List.mem_cons.mp hb with hba | hb2
      · rw [hba]; exact hmem
      · intro hbseen
        exact (ih (a.message :: seen) b hb2) (List.mem_cons_of_mem _ hbseen)

/-- The messages of the first-occurrence pass output are pairwise
distinct. -/
theorem dedupPass_messages_nodup (seen : List String) (l : List Alert) :
    ((dedupPass seen l).map (fun a => a.message)).Nodup := by
  induction l generalizing seen with
  | nil => simp [dedupPass]
  | cons a t ih =>
    by_cases hmem : a.message ∈ seen
    · rw [dedupPass, if_pos hmem]
      exact ih seen
    · rw [dedupPass, if_neg hmem, List.map_cons, List.nodup_cons]
      refine ⟨?_, ih (a.message :: seen)⟩
      intro hin
      rcases List.mem_map.mp hin with ⟨b, hb, hmsg⟩
      exact (dedupPass_not_seen (a.message :: seen) t b hb)
        (hmsg ▸ List.mem_cons_self a.message seen)

/-- Filtering for one level inside the bucket of a different level is
empty. -/
theorem filter_level_and_ne (l : List Alert) (lv1 lv2 : Level) (h : lv1 ≠ lv2) :
    l.filter (fun a => a.level == lv1 && a.level == lv2) = [] := by
  rw [List.filter_eq_nil_iff]
  intro a _
  by_cases h1 : a.level = lv1
  · simp [h1, h]
  · simp [h1]

/-- Filtering for a level inside its own bucket is the bucket itself. -/
theorem filter_level_and_self (l : List Alert) (lv : Level) :
    l.filter (fun a => a.level == lv && a.level == lv)
      = l.filter (fun a => a.level == lv) := by
  apply List.filter_congr
  intro a _
  rw [Bool.and_self]

/-- The stable three-bucket sort commutes with filtering by any fixed
level: it permutes alerts only across levels, never within one. -/
theorem sortByLevel_filter (l : List Alert) (lv : Level) :
    (sortByLevel l).filter (fun a => a.level == lv)
      = l.filter (fun a => a.level == lv) := by
  cases lv
  case red =>
    simp only [sortByLevel, List.filter_append, List.filter_filter]
    rw [filter_level_and_self, filter_level_and_ne l Level.red Level.yellow (by simp),
      filter_level_and_ne l Level.red Level.green (by simp)]
    simp
  case yellow =>
    simp only [sortByLevel, List.filter_append, List.filter_filter]
    rw [filter_level_and_self, filter_level_and_ne l Level.yellow Level.red (by simp),
      filter_level_and_ne l Level.yellow Level.green (by simp)]
    simp
  case green =>
    simp only [sortByLevel, List.filter_append, List.filter_filter]
    rw [filter_level_and_self, filter_level_and_ne l Level.green Level.red (by simp),
      filter_level_and_ne l Level.green Level.yellow (by simp)]
    simp

/-- Every member of a level bucket has that level. -/
theorem mem_filter_level (l : List Alert) (lv : Level) (a : Alert)
    (ha : a ∈ l.filter (fun x => x.level == lv)) : a.level = lv := by
  have := (List.mem_filter.mp ha).2
  simpa using this

/-- The three-bucket sort output is ordered by severity rank. -/
theorem sortByLevel_pairwise (l : List Alert) :
    (sortByLevel l).Pairwise (fun a b => levelRank a.level ≤ levelRank b.level) := by
  have hconst : ∀ lv : Level, (l.filter (fun a => a.level == lv)).Pairwise
      (fun a b => levelRank a.level ≤ levelRank b.level) := by
    intro lv
    apply List.pairwise_of_forall_mem_list
    intro a ha b hb
    rw [mem_filter_level l lv a ha, mem_filter_level l lv b hb]
  rw [sortByLevel, List.pairwise_append]
  refine ⟨?_, hconst Level.green, ?_⟩
  · rw [List.pairwise_append]
    refine ⟨hconst Level.red, hconst Level.yellow, ?_⟩
    intro a ha b hb
    rw [mem_filter_level l Level.red a ha, mem_filter_level l Level.yellow b hb]
    simp [levelRank]
  · intro a ha b hb
    rw [mem_filter_level l Level.green b hb]
    rcases List.mem_append.mp ha with haR | haY
    · rw [mem_filter_level l Level.red a haR]; simp [levelRank]
    · rw [mem_filter_level l Level.yellow a haY]; simp [levelRank]

/-- C7: the deduplicated alert list attached to a route has at most 10
entries, no two of its alerts share a message, it is ordered by severity
(every red before every yellow before every green), and within each
severity it is a subsequence of the input alerts of that severity - the
sort step is stable with respect to the pre-sort order. -/
theorem deduplicate_alerts_invariants (alerts : List Alert) :
    (_deduplicate_alerts alerts).length ≤ 10 ∧
    ((_deduplicate_alerts alerts).map (fun a => a.message)).Nodup ∧
    (_deduplicate_alerts alerts).Pairwise
      (fun a b => levelRank a.level ≤ levelRank b.level) ∧
    ∀ lv : Level,
      List.Sublist ((_deduplicate_alerts alerts).filter (fun a => a.level == lv))
        (alerts.filter (fun a => a.level == lv)) := by
  have hsub : List.Sublist (dedupPass [] (sortByLevel alerts)) (sortByLevel alerts) :=
    dedupPass_sublist [] (sortByLevel alerts)
  have htake : List.Sublist (_deduplicate_alerts alerts)
      (dedupPass [] (sortByLevel alerts)) := List.take_sublist 10 _
  refine ⟨List.length_take_le 10 _, ?_, ?_, ?_⟩
  · exact List.Nodup.sublist (List.Sublist.map _ htake)
      (dedupPass_messages_nodup [] (sortByLevel alerts))
  · exact List.Pairwise.sublist (htake.trans hsub) (sortByLevel_pairwise alerts)
  · intro lv
    have h1 : List.Sublist ((_deduplicate_alerts alerts).filter (fun a => a.level == lv))
        ((sortByLevel alerts).filter (fun a => a.level == lv)) :=
      List.Sublist.filter _ (htake.trans hsub)
    rw [sortByLevel_filter] at h1
    exact h1

/-- C5, amended: the route summary is the clear-route message for an
empty alert list, and its counts come from the deduplicated list AFTER
truncation to 10 entries; they agree with the pre-truncation counts the
claim describes exactly when the deduplicated list has at most 10
entries. -/
theorem routeSummary_counts_posttruncation (alerts : List Alert) :
    (alerts = [] → routeSummary alerts = "Route is clear with no warnings") ∧
    ((dedupPass [] (sortByLevel alerts)).length ≤ 10 →
      routeSummary alerts = routeSummary_claimed alerts) := by
  constructor
  · intro h
    rw [h]
    rfl
  · intro h
    unfold routeSummary routeSummary_claimed _deduplicate_alerts
    rw [List.take_of_length_le h]

/-- Witness for the amended C5 theorem at the empty list and at a
one-alert list. -/
theorem routeSummary_counts_posttruncation_witness :
    (routeSummary [] = "Route is clear with no warnings") ∧
    ((dedupPass [] (sortByLevel [yAlert "w01"])).length ≤ 10 ∧
      routeSummary [yAlert "w01"] = routeSummary_claimed [yAlert "w01"]) :=
  ⟨(routeSummary_counts_posttruncation []).1 rfl,
   by decide,
   (routeSummary_counts_posttruncation [yAlert "w01"]).2 (by decide)⟩

/-- C8: the route planner returns the error "No valid routes found"
exactly when every requested criterion fails to yield a route, and when
it succeeds the result is the per-criterion routes of the criteria that
did yield one, in canonical order, the others silently omitted. -/
theorem calculate_routes_no_valid_routes (findRoute : String → Option Route)
    (vehicle : Option VehicleParams) :
    (calculate_routes findRoute vehicle = Except.error "No valid routes found" ↔
      ∀ c ∈ routeCriteria vehicle, findRoute c = none) ∧
    (∀ rs, calculate_routes findRoute vehicle = Except.ok rs →
      rs = (routeCriteria vehicle).filterMap findRoute) := by
  unfold calculate_routes
  constructor
  · by_cases h : ((routeCriteria vehicle).filterMap findRoute).isEmpty
    · rw [if_pos h]
      rw [List.isEmpty_iff, List.filterMap_eq_nil_iff] at h
      exact ⟨fun _ => h, fun _ => rfl⟩
    · rw [if_neg h]
      rw [List.isEmpty_iff, List.filterMap_eq_nil_iff] at h
      constructor
      · intro hcontr
        exact absurd hcontr (by simp)
      · intro hall
        exact absurd hall h
  · intro rs hrs
    by_cases h : ((routeCriteria vehicle).filterMap findRoute).isEmpty
    · rw [if_pos h] at hrs
      exact absurd hrs (by simp)
    · rw [if_neg h] at hrs
      exact (Except.ok.injEq _ _ ▸ congrArg id hrs) ▸ (Except.ok.inj hrs).symm

/-- Witness for the C8 theorem: all criteria failing yields the fatal
error, and a single succeeding criterion yields exactly its route with
the other criteria silently omitted. -/
theorem calculate_routes_no_valid_routes_witness :
    (calculate_routes findNothing none = Except.error "No valid routes found") ∧
    ([rSample] = (routeCriteria none).filterMap findFastestOnly) :=
  ⟨(calculate_routes_no_valid_routes findNothing none).1.mpr (fun _ _ => rfl),
   (calculate_routes_no_valid_routes findFastestOnly none).2 [rSample] rfl⟩

/-- Two strings whose first characters differ are different. -/
theorem head_ne_implies_ne (s t : String) (c : Char)
    (hs : s.data.head? = some c) (ht : t.data.head? ≠ some c) : s ≠ t := by
  intro he
  rw [he] at hs
  exact ht hs

/-- On a mud-surfaced edge the surface rules emit exactly the yellow
unpaved-road alert. -/
theorem surfaceAlerts_mud (e : EdgeData) (loc : Option Coordinates)
    (hs : e.surface = some "mud") :
    surfaceAlerts e loc =
      [{ level := Level.yellow, message := "Unpaved road: mud", location := loc }] := by
  simp [surfaceAlerts, hs]

/-- No smoothness alert carries the poor-surface-mud message. -/
theorem smoothnessAlerts_msg_ne (e : EdgeData) (loc : Option Coordinates) :
    ∀ a ∈ smoothnessAlerts e loc, a.message ≠ "Poor surface condition: mud" := by
  intro a ha
  unfold smoothnessAlerts at ha
  split at ha
  · simp at ha
  · split_ifs at ha with h1 h2 <;> simp at ha
    · rw [ha]
      exact head_ne_implies_ne _ _ 'R' rfl (by decide)
    · rw [ha]
      exact head_ne_implies_ne _ _ 'V' rfl (by decide)

/-- No lighting alert carries the poor-surface-mud message. -/
theorem litAlerts_msg_ne (e : EdgeData) (loc : Option Coordinates) :
    ∀ a ∈ litAlerts e loc, a.message ≠ "Poor surface condition: mud" := by
  intro a ha
  unfold litAlerts at ha
  split_ifs at ha with h1 <;> simp at ha
  rw [ha]
  exact head_ne_implies_ne _ _ 'N' rfl (by decide)

/-- No speed alert carries the poor-surface-mud message. -/
theorem speedAlerts_msg_ne (e : EdgeData) (loc : Option Coordinates) :
    ∀ a ∈ speedAlerts e loc, a.message ≠ "Poor surface condition: mud" := by
  intro a ha
  unfold speedAlerts at ha
  split at ha
  · split_ifs at ha with h1 <;> simp at ha
    rw [ha]
    exact head_ne_implies_ne _ _ 'H' rfl (by decide)
  · simp at ha

/-- No truck height alert carries the poor-surface-mud message. -/
theorem heightAlerts_msg_ne (e : EdgeData) (v : VehicleParams) (loc : Option Coordinates) :
    ∀ a ∈ heightAlerts e v loc, a.message ≠ "Poor surface condition: mud" := by
  intro a ha
  unfold heightAlerts at ha
  split at ha
  · simp at ha
  · split_ifs at ha with h0 <;> simp at ha
    all_goals split at ha
    · simp at ha
    · split_ifs at ha with h1 h2 <;> simp at ha
      · rw [ha]
        exact head_ne_implies_ne _ _ 'H' rfl (by decide)
      · rw [ha]
        exact head_ne_implies_ne _ _ 'T' rfl (by decide)

/-- No truck weight alert carries the poor-surface-mud message. -/
theorem weightAlerts_msg_ne (e : EdgeData) (v : VehicleParams) (loc : Option Coordinates) :
    ∀ a ∈ weightAlerts e v loc, a.message ≠ "Poor surface condition: mud" := by
  intro a ha
  unfold weightAlerts at ha
  split at ha
  · simp at ha
  · split_ifs at ha with h0 <;> simp at ha
    all_goals split at ha
    · simp at ha
    · split_ifs at ha with h1 h2 <;> simp at ha
      · rw [ha]
        exact head_ne_implies_ne _ _ 'W' rfl (by decide)
      · rw [ha]
        exact head_ne_implies_ne _ _ 'N' rfl (by decide)

/-- No truck HGV alert carries the poor-surface-mud message. -/
theorem hgvAlerts_msg_ne (e : EdgeData) (loc : Option Coordinates) :
    ∀ a ∈ hgvAlerts e loc, a.message ≠ "Poor surface condition: mud" := by
  intro a ha
  unfold hgvAlerts at ha
  split_ifs at ha with h1 h2 <;> simp at ha
  · rw [ha]
    exact head_ne_implies_ne _ _ 'T' rfl (by decide)
  · rw [ha]
    exact head_ne_implies_ne _ _ 'D' rfl (by decide)

/-- No truck access alert carries the poor-surface-mud message. -/
theorem accessAlerts_msg_ne (e : EdgeData) (loc : Option Coordinates) :
    ∀ a ∈ accessAlerts e loc, a.message ≠ "Poor surface condition: mud" := by
  intro a ha
  unfold accessAlerts at ha
  split at ha
  · simp at ha
  · split_ifs at ha with h1 h2 <;> simp at ha
    · rw [ha]
      exact head_ne_implies_ne _ _ 'A' rfl (by decide)
    · rw [ha]
      exact head_ne_implies_ne _ _ 'L' rfl (by decide)

/-- No alert of the truck-specific block carries the poor-surface-mud
message. -/
theorem truckAlerts_msg_ne (e : EdgeData) (vehicle : Option VehicleParams)
    (loc : Option Coordinates) :
    ∀ a ∈ truckAlerts e vehicle loc, a.message ≠ "Poor surface condition: mud" := by
  intro a ha
  unfold truckAlerts at ha
  split at ha
  · simp at ha
  · rename_i v
    split_ifs at ha with ht
    · rcases List.mem_append.mp ha with h123 | h4
      · rcases List.mem_append.mp h123 with h12 | h3
        · rcases List.mem_append.mp h12 with h1 | h2
          · exact heightAlerts_msg_ne e v loc a h1
          · exact weightAlerts_msg_ne e v loc a h2
        · exact hgvAlerts_msg_ne e loc a h3
      · exact accessAlerts_msg_ne e loc a h4
    · simp at ha

/-- C4, amended: on every non-connector edge with surface mud, the alert
generator emits the yellow alert "Unpaved road: mud", and no alert of
that edge - for any vehicle - carries the message "Poor surface
condition: mud"; the red surface rule sits in the elif branch and only
fires for sand. -/
theorem mud_yellow_alert_only (e : EdgeData) (vehicle : Option VehicleParams)
    (node_lat node_lon : Option ℚ)
    (hc : e.connector = false) (hs : e.surface = some "mud") :
    ({ level := Level.yellow, message := "Unpaved road: mud",
       location := mkLocation node_lat node_lon } : Alert)
        ∈ generate_alerts_for_edge e vehicle node_lat node_lon ∧
    ∀ a ∈ generate_alerts_for_edge e vehicle node_lat node_lon,
      a.message ≠ "Poor surface condition: mud" := by
  have hgen : generate_alerts_for_edge e vehicle node_lat node_lon =
      surfaceAlerts e (mkLocation node_lat node_lon)
        ++ smoothnessAlerts e (mkLocation node_lat node_lon)
        ++ litAlerts e (mkLocation node_lat node_lon)
        ++ speedAlerts e (mkLocation node_lat node_lon)
        ++ truckAlerts e vehicle (mkLocation node_lat node_lon) := by
    simp [generate_alerts_for_edge, hc]
  rw [hgen, surfaceAlerts_mud e _ hs]
  constructor
  · simp
  · intro a ha
    rcases List.mem_append.mp ha with h1234 | h5
    · rcases List.mem_append.mp h1234 with h123 | h4
      · rcases List.mem_append.mp h123 with h12 | h3
        · rcases List.mem_append.mp h12 with h1 | h2
          · simp at h1
            rw [h1]
            exact head_ne_implies_ne _ _ 'U' rfl (by decide)
          · exact smoothnessAlerts_msg_ne e _ a h2
        · exact litAlerts_msg_ne e _ a h3
      · exact speedAlerts_msg_ne e _ a h4
    · exact truckAlerts_msg_ne e vehicle _ a h5

/-- Witness for the amended C4 theorem at the concrete mud edge. -/
theorem mud_yellow_alert_only_witness :
    eMudOnly.connector = false ∧ eMudOnly.surface = some "mud" ∧
    (({ level := Level.yellow, message := "Unpaved road: mud",
        location := mkLocation none none } : Alert)
          ∈ generate_alerts_for_edge eMudOnly none none none ∧
      ∀ a ∈ generate_alerts_for_edge eMudOnly none none none,
        a.message ≠ "Poor surface condition: mud") :=
  ⟨rfl, rfl, mud_yellow_alert_only eMudOnly none none none rfl rfl⟩

/-- C6, amended: the cost function returns the blocked sentinel exactly
when the edge is not a connector, the criterion is truck_compatible, a
vehicle object is provided, and one of the four hard blocks fires.  The
hgv and access blocks require vehicle_type = "truck", but the height and
weight blocks apply to ANY provided vehicle; equality with the limit
never blocks (the comparisons are strict). -/
theorem blocked_sentinel_iff (e : EdgeData) (criterion : String)
    (vehicle : Option VehicleParams) :
    calculate_edge_weight e criterion vehicle = none ↔
      (e.connector = false ∧ criterion = "truck_compatible" ∧
        ∃ v, vehicle = some v ∧
          (heightBlocked e v = true ∨ weightBlocked e v = true ∨
           hgvBlocked e v = true ∨ accessBlocked e v = true)) := by
  unfold calculate_edge_weight
  by_cases hc : e.connector = true
  · simp [hc]
  · have hc2 : e.connector = false := by
      cases h : e.connector
      · rfl
      · exact absurd h hc
    by_cases hcrit : criterion = "truck_compatible"
    · subst hcrit
      cases vehicle with
      | none => simp [hc]
      | some v =>
        unfold _get_truck_restriction_penalty
        by_cases h1 : heightBlocked e v = true
        · simp [hc, hc2, h1]
        · by_cases h2 : weightBlocked e v = true
          · simp [hc, hc2, h1, h2]
          · by_cases h3 : hgvBlocked e v = true
            · simp [hc, hc2, h1, h2, h3]
            · by_cases h4 : accessBlocked e v = true
              · simp [hc, hc2, h1, h2, h3, h4]
              · simp [hc, hc2, h1, h2, h3, h4]
    · simp [hc, hcrit]

/-- Witness for the C6 amended theorem: the concrete car/height instance
is blocked, in accordance with the characterization. -/
theorem blocked_sentinel_iff_witness :
    calculate_edge_weight eMaxH3 "truck_compatible" (some carTall) = none :=
  (blocked_sentinel_iff eMaxH3 "truck_compatible" (some carTall)).mpr
    ⟨rfl, rfl, carTall, rfl, Or.inl (by
      simp [heightBlocked, eMaxH3, eBase, carTall]
      norm_num)⟩

/-- C10: an unrecognized criterion string silently falls back to the
fastest multiplier row and never triggers truck gating, so the cost
equals the fastest-criterion cost for every edge and vehicle. -/
theorem unknown_criterion_falls_back_to_fastest (e : EdgeData)
    (vehicle : Option VehicleParams) (c : String)
    (h1 : c ≠ "fastest") (h2 : c ≠ "best_surface") (h3 : c ≠ "safest")
    (h4 : c ≠ "truck_compatible") :
    calculate_edge_weight e c vehicle = calculate_edge_weight e "fastest" vehicle := by
  have hm : criterionMultipliers c = fastestMultipliers := by
    unfold criterionMultipliers CRITERIA_MULTIPLIERS
    rw [if_neg h1, if_neg h2, if_neg h3, if_neg h4]
    rfl
  have hf : criterionMultipliers "fastest" = fastestMultipliers := by
    unfold criterionMultipliers CRITERIA_MULTIPLIERS
    simp
  simp [calculate_edge_weight, hm, hf, h4]

/-- Witness for C10 at the criterion string "scenic". -/
theorem unknown_criterion_falls_back_to_fastest_witness :
    calculate_edge_weight eBase "scenic" none = calculate_edge_weight eBase "fastest" none :=
  unknown_criterion_falls_back_to_fastest eBase none "scenic"
    (by decide) (by decide) (by decide) (by decide)

/-- C9, amended: _parse_maxspeed tokenizes on whitespace and applies
Python int() to the ENTIRE first token (so a token with trailing
non-digit characters fails), multiplies by 1.60934 and truncates toward
zero when the original string contains "mph" case-insensitively, and
turns every failure (no token, or an unparseable first token) into
absence rather than an error. -/
theorem parse_maxspeed_whole_first_token (s : String) :
    (pySplit s = [] → _parse_maxspeed (some s) = none) ∧
    (∀ tok rest, pySplit s = tok :: rest →
      (pyInt tok = none → _parse_maxspeed (some s) = none) ∧
      (∀ n, pyInt tok = some n →
        _parse_maxspeed (some s) =
          some (if containsMph s then truncQ ((n : ℚ) * MPH_TO_KMH) else n))) ∧
    _parse_maxspeed none = none := by
  refine ⟨?_, ?_, rfl⟩
  · intro hnil
    by_cases hs : s = ""
    · simp [_parse_maxspeed, hs]
    · simp [_parse_maxspeed, hs, hnil]
  · intro tok rest hcons
    have hs : ¬s = "" := by
      intro h
      rw [h] at hcons
      rw [(by decide : pySplit "" = ([] : List String))] at hcons
      exact List.noConfusion hcons
    constructor
    · intro hnone
      simp [_parse_maxspeed, hs, hcons, hnone]
    · intro n hn
      simp [_parse_maxspeed, hs, hcons, hn]

/-- Witness for the C9 amended theorem at "50 mph": the first token is
the full integer 50, the string contains "mph", and the parse yields
trunc(50 * 1.60934) = 80. -/
theorem parse_maxspeed_whole_first_token_witness :
    pySplit "50 mph" = ["50", "mph"] ∧
    pyInt "50" = some 50 ∧
    _parse_maxspeed (some "50 mph") =
      some (if containsMph "50 mph" then truncQ ((50 : ℚ) * MPH_TO_KMH) else 50) :=
  ⟨by decide, by decide,
   ((parse_maxspeed_whole_first_token "50 mph").2.1 "50" ["mph"] (by decide)).2 50 (by decide)⟩

/-- Parallel-edge lists distribute over appending edge lists. -/
theorem parEdges_append (G1 G2 : List (Node × Node × EdgeData)) (u v : Node) :
    parallelEdges (G1 ++ G2) u v = parallelEdges G1 u v ++ parallelEdges G2 u v := by
  simp [parallelEdges]

/-- The parallel edges of a one-edge list. -/
theorem parEdges_singleton (t : Node × Node × EdgeData) (u v : Node) :
    parallelEdges [t] u v =
      if (t.1 == u && t.2.1 == v) = true then [t.2.2] else [] := by
  by_cases h : (t.1 == u && t.2.1 == v) = true
  · simp [parallelEdges, h]
  · simp [parallelEdges, h]

/-- The alert-side edge selection picks the first parallel edge. -/
theorem multiGetEdgeData_eq_head (G : List (Node × Node × EdgeData)) (u v : Node) :
    multi_get_edge_data G u v = (parallelEdges G u v).head? := by
  unfold multi_get_edge_data parallelEdges
  induction G with
  | nil => rfl
  | cons t ts ih =>
    by_cases h : (t.1 == u && t.2.1 == v) = true
    · rw [@List.find?_cons_of_pos _ (fun x => x.1 == u && x.2.1 == v) t ts h,
        @List.filter_cons_of_pos _ (fun x => x.1 == u && x.2.1 == v) t ts h]
      simp
    · rw [@List.find?_cons_of_neg _ (fun x => x.1 == u && x.2.1 == v) t ts h,
        @List.filter_cons_of_neg _ (fun x => x.1 == u && x.2.1 == v) t ts h]
      exact ih

/-- The weighted DiGraph view stores, for each ordered node pair, the
weight and data of the LAST parallel edge whose weight is finite. -/
theorem createWeightedGraph_eq_getLast (G : List (Node × Node × EdgeData))
    (criterion : String) (vehicle : Option VehicleParams) (u v : Node) :
    _create_weighted_graph G criterion vehicle u v =
      ((parallelEdges G u v).filterMap (wgEntry criterion vehicle)).getLast? := by
  induction G using List.reverseRecOn with
  | nil => rfl
  | append_singleton ts t ih =>
    cases hw : calculate_edge_weight t.2.2 criterion vehicle with
    | none =>
      have hstep : _create_weighted_graph (ts ++ [t]) criterion vehicle u v =
          _create_weighted_graph ts criterion vehicle u v := by
        simp [_create_weighted_graph, hw]
      rw [hstep, parEdges_append, List.filterMap_append, List.getLast?_append,
        parEdges_singleton]
      by_cases hp : (t.1 == u && t.2.1 == v) = true
      · rw [if_pos hp]
        have h0 : List.filterMap (wgEntry criterion vehicle) [t.2.2] = [] := by
          simp [wgEntry, hw]
        rw [h0, List.getLast?_nil, Option.none_or]
        exact ih
      · rw [if_neg hp, List.filterMap_nil, List.getLast?_nil, Option.none_or]
        exact ih
    | some w =>
      have hstep : _create_weighted_graph (ts ++ [t]) criterion vehicle u v =
          (if u = t.1 ∧ v = t.2.1 then some (w, t.2.2)
           else _create_weighted_graph ts criterion vehicle u v) := by
        simp [_create_weighted_graph, hw]
      rw [hstep, parEdges_append, List.filterMap_append, List.getLast?_append,
        parEdges_singleton]
      by_cases hp : u = t.1 ∧ v = t.2.1
      · rw [if_pos hp]
        have hb : (t.1 == u && t.2.1 == v) = true := by
          rcases hp with ⟨h5, h6⟩
          rw [h5, h6]
          simp
        rw [if_pos hb]
        have h1 : List.filterMap (wgEntry criterion vehicle) [t.2.2] = [(w, t.2.2)] := by
          simp [wgEntry, hw]
        rw [h1]
        rfl
      · rw [if_neg hp]
        have hb : ¬((t.1 == u && t.2.1 == v) = true) := by
          intro hcontr
          simp only [Bool.and_eq_true, beq_iff_eq] at hcontr
          exact hp ⟨hcontr.1.symm, hcontr.2.symm⟩
        rw [if_neg hb, List.filterMap_nil, List.getLast?_nil, Option.none_or]
        exact ih

/-- C2, amended: for parallel edges between the same ordered node pair,
the weighted view handed to the shortest-path search stores the weight
and attributes of the LAST parallel edge of finite weight (DiGraph
add_edge overwrites; blocked edges are skipped), not of the
minimum-weight one; and alert generation consumes the attributes of the
FIRST parallel edge of the multigraph, independently of the weights. -/
theorem parallel_edge_last_wins_first_alerted (G : List (Node × Node × EdgeData))
    (criterion : String) (vehicle : Option VehicleParams) (u v : Node) :
    _create_weighted_graph G criterion vehicle u v =
      ((parallelEdges G u v).filterMap (wgEntry criterion vehicle)).getLast? ∧
    multi_get_edge_data G u v = (parallelEdges G u v).head? :=
  ⟨createWeightedGraph_eq_getLast G criterion vehicle u v,
   multiGetEdgeData_eq_head G u v⟩


/-- Every highway table lookup, with the default fallback, is at
least 1. -/
theorem hw_table_ge (s : String) : 1 ≤ (HIGHWAY_WEIGHTS s).getD HIGHWAY_WEIGHTS_default := by
  unfold HIGHWAY_WEIGHTS HIGHWAY_WEIGHTS_default
  by_cases h1 : s = "motorway"
  · simp [h1] <;> norm_num
  by_cases h2 : s = "motorway_link"
  · simp [h1, h2] <;> norm_num
  by_cases h3 : s = "trunk"
  · simp [h1, h2, h3] <;> norm_num
  by_cases h4 : s = "trunk_link"
  · simp [h1, h2, h3, h4] <;> norm_num
  by_cases h5 : s = "primary"
  · simp [h1, h2, h3, h4, h5] <;> norm_num
  by_cases h6 : s = "primary_link"
  · simp [h1, h2, h3, h4, h5, h6] <;> norm_num
  by_cases h7 : s = "secondary"
  · simp [h1, h2, h3, h4, h5, h6, h7] <;> norm_num
  by_cases h8 : s = "secondary_link"
  · simp [h1, h2, h3, h4, h5, h6, h7, h8] <;> norm_num
  by_cases h9 : s = "tertiary"
  · simp [h1, h2, h3, h4, h5, h6, h7, h8, h9] <;> norm_num
  by_cases h10 : s = "tertiary_link"
  · simp [h1, h2, h3, h4, h5, h6, h7, h8, h9, h10] <;> norm_num
  by_cases h11 : s = "unclassified"
  · simp [h1, h2, h3, h4, h5, h6, h7, h8, h9, h10, h11] <;> norm_num
  by_cases h12 : s = "residential"
  · simp [h1, h2, h3, h4, h5, h6, h7, h8, h9, h10, h11, h12] <;> norm_num
  by_cases h13 : s = "living_street"
  · simp [h1, h2, h3, h4, h5, h6, h7, h8, h9, h10, h11, h12, h13] <;> norm_num
  by_cases h14 : s = "service"
  · simp [h1, h2, h3, h4, h5, h6, h7, h8, h9, h10, h11, h12, h13, h14] <;> norm_num
  by_cases h15 : s = "track"
  · simp [h1, h2, h3, h4, h5, h6, h7, h8, h9, h10, h11, h12, h13, h14, h15] <;> norm_num
  by_cases h16 : s = "path"
  · simp [h1, h2, h3, h4, h5, h6, h7, h8, h9, h10, h11, h12, h13, h14, h15, h16] <;> norm_num
  by_cases h17 : s = "footway"
  · simp [h1, h2, h3, h4, h5, h6, h7, h8, h9, h10, h11, h12, h13, h14, h15, h16, h17] <;> norm_num
  by_cases h18 : s = "default"
  · simp [h1, h2, h3, h4, h5, h6, h7, h8, h9, h10, h11, h12, h13, h14, h15, h16, h17, h18] <;> norm_num
  simp [h1, h2, h3, h4, h5, h6, h7, h8, h9, h10, h11, h12, h13, h14, h15, h16, h17, h18] <;> norm_num

/-- Every surface table lookup, with the default fallback, is at
least 1. -/
theorem surf_table_ge (s : String) : 1 ≤ (SURFACE_WEIGHTS s).getD SURFACE_WEIGHTS_default := by
  unfold SURFACE_WEIGHTS SURFACE_WEIGHTS_default
  by_cases h1 : s = "asphalt"
  · simp [h1] <;> norm_num
  by_cases h2 : s = "concrete"
  · simp [h1, h2] <;> norm_num
  by_cases h3 : s = "paved"
  · simp [h1, h2, h3] <;> norm_num
  by_cases h4 : s = "concrete:plates"
  · simp [h1, h2, h3, h4] <;> norm_num
  by_cases h5 : s = "paving_stones"
  · simp [h1, h2, h3, h4, h5] <;> norm_num
  by_cases h6 : s = "compacted"
  · simp [h1, h2, h3, h4, h5, h6] <;> norm_num
  by_cases h7 : s = "fine_gravel"
  · simp [h1, h2, h3, h4, h5, h6, h7] <;> norm_num
  by_cases h8 : s = "gravel"
  · simp [h1, h2, h3, h4, h5, h6, h7, h8] <;> norm_num
  by_cases h9 : s = "unpaved"
  · simp [h1, h2, h3, h4, h5, h6, h7, h8, h9] <;> norm_num
  by_cases h10 : s = "dirt"
  · simp [h1, h2, h3, h4, h5, h6, h7, h8, h9, h10] <;> norm_num
  by_cases h11 : s = "ground"
  · simp [h1, h2, h3, h4, h5, h6, h7, h8, h9, h10, h11] <;> norm_num
  by_cases h12 : s = "grass"
  · simp [h1, h2, h3, h4, h5, h6, h7, h8, h9, h10, h11, h12] <;> norm_num
  by_cases h13 : s = "sand"
  · simp [h1, h2, h3, h4, h5, h6, h7, h8, h9, h10, h11, h12, h13] <;> norm_num
  by_cases h14 : s = "mud"
  · simp [h1, h2, h3, h4, h5, h6, h7, h8, h9, h10, h11, h12, h13, h14] <;> norm_num
  by_cases h15 : s = "default"
  · simp [h1, h2, h3, h4, h5, h6, h7, h8, h9, h10, h11, h12, h13, h14, h15] <;> norm_num
  simp [h1, h2, h3, h4, h5, h6, h7, h8, h9, h10, h11, h12, h13, h14, h15] <;> norm_num

/-- Every smoothness table lookup, with the default fallback, is at
least 1. -/
theorem smooth_table_ge (s : String) :
    1 ≤ (SMOOTHNESS_WEIGHTS s).getD SMOOTHNESS_WEIGHTS_default := by
  unfold SMOOTHNESS_WEIGHTS SMOOTHNESS_WEIGHTS_default
  by_cases h1 : s = "excellent"
  · simp [h1] <;> norm_num
  by_cases h2 : s = "good"
  · simp [h1, h2] <;> norm_num
  by_cases h3 : s = "intermediate"
  · simp [h1, h2, h3] <;> norm_num
  by_cases h4 : s = "bad"
  · simp [h1, h2, h3, h4] <;> norm_num
  by_cases h5 : s = "very_bad"
  · simp [h1, h2, h3, h4, h5] <;> norm_num
  by_cases h6 : s = "horrible"
  · simp [h1, h2, h3, h4, h5, h6] <;> norm_num
  by_cases h7 : s = "very_horrible"
  · simp [h1, h2, h3, h4, h5, h6, h7] <;> norm_num
  by_cases h8 : s = "impassable"
  · simp [h1, h2, h3, h4, h5, h6, h7, h8] <;> norm_num
  by_cases h9 : s = "default"
  · simp [h1, h2, h3, h4, h5, h6, h7, h8, h9] <;> norm_num
  simp [h1, h2, h3, h4, h5, h6, h7, h8, h9] <;> norm_num

/-- Every lighting factor lookup, with the default fallback, is at
least 0.8. -/
theorem lit_table_ge (s : String) :
    4/5 ≤ (SAFETY_FACTORS_lit s).getD SAFETY_FACTORS_lit_default := by
  unfold SAFETY_FACTORS_lit SAFETY_FACTORS_lit_default
  by_cases h1 : s = "yes"
  · simp [h1] <;> norm_num
  by_cases h2 : s = "no"
  · simp [h1, h2] <;> norm_num
  by_cases h3 : s = "default"
  · simp [h1, h2, h3] <;> norm_num
  simp [h1, h2, h3] <;> norm_num

/-- The highway excess is nonnegative. -/
theorem highway_weight_nonneg (e : EdgeData) : 0 ≤ _get_highway_weight e := by
  unfold _get_highway_weight
  have := hw_table_ge (e.highway.getD DEFAULTS_highway)
  linarith

/-- The surface excess is nonnegative. -/
theorem surface_weight_nonneg (e : EdgeData) : 0 ≤ _get_surface_weight e := by
  unfold _get_surface_weight
  split
  · norm_num
  · rename_i s heq
    split_ifs with h1
    · norm_num
    · have := surf_table_ge s
      linarith

/-- The smoothness excess is nonnegative. -/
theorem smoothness_weight_nonneg (e : EdgeData) : 0 ≤ _get_smoothness_weight e := by
  unfold _get_smoothness_weight
  split
  · norm_num
  · rename_i s heq
    split_ifs with h1
    · norm_num
    · have := smooth_table_ge s
      linarith

/-- The lighting factor is at least 0.8 (the lit=yes bonus). -/
theorem litFactor_ge (e : EdgeData) : 4/5 ≤ litFactor e := by
  unfold litFactor
  split
  · norm_num [SAFETY_FACTORS_lit_default]
  · rename_i l heq
    split_ifs with h1
    · norm_num [SAFETY_FACTORS_lit_default]
    · exact lit_table_ge l

/-- The traffic-signals factor is at least 0.9 (the signals bonus). -/
theorem tsFactor_ge (e : EdgeData) : 9/10 ≤ trafficSignalsFactor e := by
  unfold trafficSignalsFactor SAFETY_FACTORS_traffic_signals_yes
  split
  · norm_num
  · split_ifs <;> norm_num

/-- The speed penalty is never below 1. -/
theorem speed_penalty_ge_one (n : Int) : 1 ≤ get_speed_penalty n := by
  unfold get_speed_penalty
  split_ifs <;> norm_num

/-- The speed factor inside the safety weight is never below 1. -/
theorem speedFactor_ge_one (e : EdgeData) : 1 ≤ speedFactor e := by
  unfold speedFactor
  split
  · norm_num
  · split_ifs with h1
    · norm_num
    · exact speed_penalty_ge_one _

/-- The safety excess is bounded below by the extreme bonus combination
0.8 * 0.9 * 1 - 1 = -0.28. -/
theorem safety_weight_lb (e : EdgeData) : -(7/25) ≤ _get_safety_weight e := by
  unfold _get_safety_weight
  have h1 := litFactor_ge e
  have h2 := tsFactor_ge e
  have h3 := speedFactor_ge_one e
  have p1 : (0 : ℚ) < litFactor e := lt_of_lt_of_le (by norm_num) h1
  have step1 : (4/5 : ℚ) * (9/10) ≤ litFactor e * trafficSignalsFactor e :=
    mul_le_mul h1 h2 (by norm_num) (le_of_lt p1)
  have hnn : (0 : ℚ) ≤ litFactor e * trafficSignalsFactor e := by nlinarith
  have step2 : litFactor e * trafficSignalsFactor e ≤
      litFactor e * trafficSignalsFactor e * speedFactor e :=
    le_mul_of_one_le_right hnn h3
  nlinarith

/-- The multiplier row of every criterion string has distance 1,
nonnegative entries and safety at most 3. -/
theorem multipliers_facts (c : String) :
    (criterionMultipliers c).distance = 1 ∧
    0 ≤ (criterionMultipliers c).highway_type ∧
    0 ≤ (criterionMultipliers c).surface ∧
    0 ≤ (criterionMultipliers c).smoothness ∧
    0 ≤ (criterionMultipliers c).safety ∧
    (criterionMultipliers c).safety ≤ 3 := by
  unfold criterionMultipliers CRITERIA_MULTIPLIERS fastestMultipliers
  by_cases h1 : c = "fastest"
  · simp [h1] <;> norm_num
  by_cases h2 : c = "best_surface"
  · simp [h1, h2] <;> norm_num
  by_cases h3 : c = "safest"
  · simp [h1, h2, h3] <;> norm_num
  by_cases h4 : c = "truck_compatible"
  · simp [h1, h2, h3, h4] <;> norm_num
  simp [h1, h2, h3, h4] <;> norm_num

/-- A finite truck restriction penalty is at least 1 (the soft penalties
only ever multiply by 2.0 and 1.5). -/
theorem penalty_ge_one (e : EdgeData) (v : VehicleParams) (p : ℚ)
    (h : _get_truck_restriction_penalty e v = some p) : 1 ≤ p := by
  unfold _get_truck_restriction_penalty at h
  split_ifs at h <;>
    first
      | exact Option.noConfusion h
      | (injection h with h2; rw [← h2]; norm_num)

/-- C1, amended: for every non-connector edge of positive length and
every criterion and vehicle, a finite cost is strictly positive and the
highway, surface and smoothness factors are at least 1; the SAFETY
factor, however, can drop below 1 (lit=yes and traffic signals are
bonuses), so the cost is only bounded below by
length * M.distance * (1 - 0.28 * M.safety), a positive but weaker floor
than the claimed length * M.distance. -/
theorem cost_positive_with_weaker_floor (e : EdgeData) (criterion : String)
    (vehicle : Option VehicleParams) (w : ℚ)
    (hconn : e.connector = false) (hdist : 0 < e.distance)
    (hw : calculate_edge_weight e criterion vehicle = some w) :
    0 < w ∧
    1 ≤ 1 + _get_highway_weight e * (criterionMultipliers criterion).highway_type ∧
    1 ≤ 1 + _get_surface_weight e * (criterionMultipliers criterion).surface ∧
    1 ≤ 1 + _get_smoothness_weight e * (criterionMultipliers criterion).smoothness ∧
    0 < 1 + _get_safety_weight e * (criterionMultipliers criterion).safety ∧
    e.distance * (criterionMultipliers criterion).distance *
        (1 - (7/25) * (criterionMultipliers criterion).safety) ≤ w := by
  obtain ⟨hMd, hMh, hMs, hMsm, hMsafe0, hMsafe3⟩ := multipliers_facts criterion
  have hF1 : 1 ≤ 1 + _get_highway_weight e * (criterionMultipliers criterion).highway_type := by
    have := mul_nonneg (highway_weight_nonneg e) hMh
    linarith
  have hF2 : 1 ≤ 1 + _get_surface_weight e * (criterionMultipliers criterion).surface := by
    have := mul_nonneg (surface_weight_nonneg e) hMs
    linarith
  have hF3 : 1 ≤ 1 + _get_smoothness_weight e * (criterionMultipliers criterion).smoothness := by
    have := mul_nonneg (smoothness_weight_nonneg e) hMsm
    linarith
  have hswlb := safety_weight_lb e
  have hF4lb : 1 - (7/25) * (criterionMultipliers criterion).safety ≤
      1 + _get_safety_weight e * (criterionMultipliers criterion).safety := by
    have hprod : 0 ≤ (_get_safety_weight e + 7/25) * (criterionMultipliers criterion).safety :=
      mul_nonneg (by linarith) hMsafe0
    nlinarith
  have hF4pos : 0 < 1 + _get_safety_weight e * (criterionMultipliers criterion).safety := by
    have h75 : (7/25 : ℚ) * (criterionMultipliers criterion).safety ≤ (7/25) * 3 :=
      mul_le_mul_of_nonneg_left hMsafe3 (by norm_num)
    linarith
  have hMdpos : (0 : ℚ) < (criterionMultipliers criterion).distance := by
    rw [hMd]
    norm_num
  -- name the base composition
  have hbase_pos : 0 < e.distance * (criterionMultipliers criterion).distance *
      (1 + _get_highway_weight e * (criterionMultipliers criterion).highway_type) *
      (1 + _get_surface_weight e * (criterionMultipliers criterion).surface) *
      (1 + _get_smoothness_weight e * (criterionMultipliers criterion).smoothness) *
      (1 + _get_safety_weight e * (criterionMultipliers criterion).safety) := by
    apply mul_pos
    apply mul_pos
    apply mul_pos
    apply mul_pos
    apply mul_pos hdist hMdpos
    · linarith
    · linarith
    · linarith
    · exact hF4pos
  have hfloor : e.distance * (criterionMultipliers criterion).distance *
      (1 - (7/25) * (criterionMultipliers criterion).safety) ≤
      e.distance * (criterionMultipliers criterion).distance *
      (1 + _get_highway_weight e * (criterionMultipliers criterion).highway_type) *
      (1 + _get_surface_weight e * (criterionMultipliers criterion).surface) *
      (1 + _get_smoothness_weight e * (criterionMultipliers criterion).smoothness) *
      (1 + _get_safety_weight e * (criterionMultipliers criterion).safety) := by
    have hdm : (0 : ℚ) ≤ e.distance * (criterionMultipliers criterion).distance :=
      le_of_lt (mul_pos hdist hMdpos)
    have t1 : (1 + _get_safety_weight e * (criterionMultipliers criterion).safety) ≤
        (1 + _get_smoothness_weight e * (criterionMultipliers criterion).smoothness) *
        (1 + _get_safety_weight e * (criterionMultipliers criterion).safety) :=
      le_mul_of_one_le_left (le_of_lt hF4pos) hF3
    have t1nn : (0 : ℚ) ≤
        (1 + _get_smoothness_weight e * (criterionMultipliers criterion).smoothness) *
        (1 + _get_safety_weight e * (criterionMultipliers criterion).safety) := by
      nlinarith
    have t2 : (1 + _get_smoothness_weight e * (criterionMultipliers criterion).smoothness) *
        (1 + _get_safety_weight e * (criterionMultipliers criterion).safety) ≤
        (1 + _get_surface_weight e * (criterionMultipliers criterion).surface) *
        ((1 + _get_smoothness_weight e * (criterionMultipliers criterion).smoothness) *
         (1 + _get_safety_weight e * (criterionMultipliers criterion).safety)) :=
      le_mul_of_one_le_left t1nn hF2
    have t2nn : (0 : ℚ) ≤
        (1 + _get_surface_weight e * (criterionMultipliers criterion).surface) *
        ((1 + _get_smoothness_weight e * (criterionMultipliers criterion).smoothness) *
         (1 + _get_safety_weight e * (criterionMultipliers criterion).safety)) := by
      nlinarith
    have t3 : (1 + _get_surface_weight e * (criterionMultipliers criterion).surface) *
        ((1 + _get_smoothness_weight e * (criterionMultipliers criterion).smoothness) *
         (1 + _get_safety_weight e * (criterionMultipliers criterion).safety)) ≤
        (1 + _get_highway_weight e * (criterionMultipliers criterion).highway_type) *
        ((1 + _get_surface_weight e * (criterionMultipliers criterion).surface) *
         ((1 + _get_smoothness_weight e * (criterionMultipliers criterion).smoothness) *
          (1 + _get_safety_weight e * (criterionMultipliers criterion).safety))) :=
      le_mul_of_one_le_left t2nn hF1
    have hchain : (1 + _get_safety_weight e * (criterionMultipliers criterion).safety) ≤
        (1 + _get_highway_weight e * (criterionMultipliers criterion).highway_type) *
        ((1 + _get_surface_weight e * (criterionMultipliers criterion).surface) *
         ((1 + _get_smoothness_weight e * (criterionMultipliers criterion).smoothness) *
          (1 + _get_safety_weight e * (criterionMultipliers criterion).safety))) := by
      linarith
    calc e.distance * (criterionMultipliers criterion).distance *
        (1 - (7/25) * (criterionMultipliers criterion).safety)
        ≤ e.distance * (criterionMultipliers criterion).distance *
          (1 + _get_safety_weight e * (criterionMultipliers criterion).safety) :=
          mul_le_mul_of_nonneg_left hF4lb hdm
      _ ≤ e.distance * (criterionMultipliers criterion).distance *
          ((1 + _get_highway_weight e * (criterionMultipliers criterion).highway_type) *
           ((1 + _get_surface_weight e * (criterionMultipliers criterion).surface) *
            ((1 + _get_smoothness_weight e * (criterionMultipliers criterion).smoothness) *
             (1 + _get_safety_weight e * (criterionMultipliers criterion).safety)))) :=
          mul_le_mul_of_nonneg_left hchain hdm
      _ = e.distance * (criterionMultipliers criterion).distance *
          (1 + _get_highway_weight e * (criterionMultipliers criterion).highway_type) *
          (1 + _get_surface_weight e * (criterionMultipliers criterion).surface) *
          (1 + _get_smoothness_weight e * (criterionMultipliers criterion).smoothness) *
          (1 + _get_safety_weight e * (criterionMultipliers criterion).safety) := by ring
  refine ⟨?_, hF1, hF2, hF3, hF4pos, ?_⟩
  all_goals {
    simp only [calculate_edge_weight, hconn, Bool.false_eq_true, if_false] at hw
    by_cases hcrit : criterion = "truck_compatible"
    · rw [if_pos hcrit] at hw
      cases vehicle with
      | none =>
        simp only [Option.some_inj] at hw
        first
          | (rw [← hw]; exact hbase_pos)
          | (rw [← hw]; exact hfloor)
      | some v =>
        have hw2 : ((match _get_truck_restriction_penalty e v with
            | none => none
            | some p => some (e.distance * (criterionMultipliers criterion).distance *
                (1 + _get_highway_weight e * (criterionMultipliers criterion).highway_type) *
                (1 + _get_surface_weight e * (criterionMultipliers criterion).surface) *
                (1 + _get_smoothness_weight e * (criterionMultipliers criterion).smoothness) *
                (1 + _get_safety_weight e * (criterionMultipliers criterion).safety) * p)
            : Option ℚ) = some w) := hw
        clear hw
        cases hp : _get_truck_restriction_penalty e v with
        | none =>
          rw [hp] at hw2
          exact Option.noConfusion hw2
        | some p =>
          rw [hp] at hw2
          simp only [Option.some_inj] at hw2
          have hpge := penalty_ge_one e v p hp
          have hble := le_mul_of_one_le_right (le_of_lt hbase_pos) hpge
          first
            | (rw [← hw2]; exact mul_pos hbase_pos (by linarith))
            | (rw [← hw2]; linarith)
    · rw [if_neg hcrit] at hw
      simp only [Option.some_inj] at hw
      first
        | (rw [← hw]; exact hbase_pos)
        | (rw [← hw]; exact hfloor)
  }

/-- Witness for the amended C1 theorem at the lit motorway edge under the
safest criterion, where the finite cost is 22/25. -/
theorem cost_positive_with_weaker_floor_witness :
    eLitYes.connector = false ∧ (0 : ℚ) < eLitYes.distance ∧
    (0 < (22/25 : ℚ) ∧
      1 ≤ 1 + _get_highway_weight eLitYes * (criterionMultipliers "safest").highway_type ∧
      1 ≤ 1 + _get_surface_weight eLitYes * (criterionMultipliers "safest").surface ∧
      1 ≤ 1 + _get_smoothness_weight eLitYes * (criterionMultipliers "safest").smoothness ∧
      0 < 1 + _get_safety_weight eLitYes * (criterionMultipliers "safest").safety ∧
      eLitYes.distance * (criterionMultipliers "safest").distance *
          (1 - (7/25) * (criterionMultipliers "safest").safety) ≤ 22/25) :=
  ⟨rfl, by norm_num [eLitYes, eBase],
   cost_positive_with_weaker_floor eLitYes "safest" none (22/25) rfl
     (by norm_num [eLitYes, eBase])
     (by
       simp [calculate_edge_weight, criterionMultipliers, CRITERIA_MULTIPLIERS,
         fastestMultipliers, _get_highway_weight, HIGHWAY_WEIGHTS, HIGHWAY_WEIGHTS_default,
         DEFAULTS_highway, _get_surface_weight, _get_smoothness_weight, _get_safety_weight,
         litFactor, SAFETY_FACTORS_lit, SAFETY_FACTORS_lit_default, trafficSignalsFactor,
         speedFactor, effectiveMaxspeed, DEFAULTS_maxspeed, get_speed_penalty, eLitYes, eBase]
       norm_num)⟩
